import Mathlib

/-!
Shallow embedding of the Kurento RTP synchronizer
(kms-core/src/gst-plugins/commons/kmsrtpsynchronizer.c).

C unsigned 64-bit values are modelled as `Nat` with explicit reduction
modulo `2 ^ 64` wherever the C arithmetic can wrap; the GStreamer sentinel
`GST_CLOCK_TIME_NONE` (= `G_MAXUINT64`) is the value `2 ^ 64 - 1`.
Signed 32-bit quantities (`pt`, `clock_rate`) are modelled as `Int`.
-/

/-- `G_MAXUINT64`, which doubles as `GST_CLOCK_TIME_NONE`, the unset
sentinel for all timestamp fields of the synchronizer. -/
def U64MAX : Nat := 2 ^ 64 - 1

/-- `2 ^ 64`, the modulus of C `guint64` arithmetic. -/
def U64MOD : Nat := 2 ^ 64

/-- `GST_SECOND`: nanoseconds per second. -/
def GST_SECOND : Nat := 1000000000

/-- `gst_util_uint64_scale` / `gst_util_uint64_scale_int`: computes
`v * num / den` exactly, with a 128-bit intermediate; the GStreamer
implementation returns `G_MAXUINT64` when the result does not fit in
64 bits. -/
def gstScale (v num den : Nat) : Nat :=
  min (v * num / den) U64MAX

/-- Modelled from the spec: `gst_rtp_buffer_ext_timestamp`, the GStreamer
library routine that the synchronizer calls for every RTP packet and
every Sender Report; the routine itself is not part of this repository's
sources. Spec section 4.1: on the first call (stored counter is the unset
sentinel) return the 32-bit timestamp zero-extended; otherwise compute the
signed 32-bit difference between the new low 32 bits and the low 32 bits
of the stored extended counter, add it to the stored counter modulo
`2 ^ 64`, store, return. -/
def extTimestamp (ext ts : Nat) : Nat :=
  if ext = U64MAX then ts
  else
    let d := (ts % 2 ^ 32 + 2 ^ 32 - ext % 2 ^ 32) % 2 ^ 32
    if d < 2 ^ 31 then (ext + d) % U64MOD
    else (ext + d + (U64MOD - 2 ^ 32)) % U64MOD

/-- The error kinds surfaced by the synchronizer (`KMS_RTP_SYNC_ERROR`
domain): `KMS_RTP_SYNC_INVALID_DATA` and `KMS_RTP_SYNC_UNEXPECTED_ERROR`. -/
inductive SyncError where
  | InvalidData
  | UnexpectedError
deriving DecidableEq, Repr

/-- `KmsRtpSynchronizerPrivate`: the per-instance state (stats-file and
locking fields omitted; they do not feed the PTS algorithm). -/
structure SyncState where
  feeded_sorted : Bool
  ssrc : Nat
  pt : Int
  clock_rate : Int
  base_initiated : Bool
  base_ntp_time : Nat
  base_sync_time : Nat
  base_interpolate_initiated : Bool
  base_interpolate_ext_ts : Nat
  base_interpolate_pts : Nat
  rtp_ext_ts : Nat
  last_rtcp_ext_ts : Nat
  last_rtcp_ntp_time : Nat
  fs_last_rtp_ext_ts : Nat
  fs_last_pts : Nat
deriving DecidableEq, Repr

/-- `kms_rtp_synchronizer_init` plus `kms_rtp_synchronizer_new`: all
timestamps start at the unset sentinel, `ssrc`, `pt` and `clock_rate`
start at 0, and `feeded_sorted` is set by the creator. -/
def initState (feeded_sorted : Bool) : SyncState :=
  { feeded_sorted := feeded_sorted
    ssrc := 0
    pt := 0
    clock_rate := 0
    base_initiated := false
    base_ntp_time := U64MAX
    base_sync_time := U64MAX
    base_interpolate_initiated := false
    base_interpolate_ext_ts := U64MAX
    base_interpolate_pts := U64MAX
    rtp_ext_ts := U64MAX
    last_rtcp_ext_ts := U64MAX
    last_rtcp_ntp_time := U64MAX
    fs_last_rtp_ext_ts := U64MAX
    fs_last_pts := U64MAX }

/-- Result of `kms_rtp_synchronizer_set_pt_clock_rate`. -/
structure CfgResult where
  state : SyncState
  ok : Bool
  err : Option SyncError
deriving DecidableEq, Repr

/-- `kms_rtp_synchronizer_set_pt_clock_rate`: rejects a non-positive
clock rate, rejects a second configuration (detected by
`clock_rate != 0`), otherwise stores `pt` and `clock_rate`. -/
def setPtClockRate (s : SyncState) (pt clock_rate : Int) : CfgResult :=
  if clock_rate ≤ 0 then ⟨s, false, some .InvalidData⟩
  else if s.clock_rate ≠ 0 then ⟨s, false, some .InvalidData⟩
  else ⟨{ s with pt := pt, clock_rate := clock_rate }, true, none⟩

/-- The NTP-offset step of `kms_rtp_synchronizer_process_rtp_buffer_mapped`
(lines 519-529): starting from `pts` (= `base_sync_time`), add or subtract
the difference between `last_rtcp_ntp_time` and `base_ntp_time` in
wrapping `guint64` arithmetic, recording `wrapped_up` when an addition
overflows and `wrapped_down` when a subtraction underflows. Returns
`(new pts, wrapped_down, wrapped_up)`. -/
def ntpOffsetStep (base_ntp last_ntp pts : Nat) : Nat × Bool × Bool :=
  if last_ntp > base_ntp then
    let d := last_ntp - base_ntp
    ((pts + d) % U64MOD, false, decide (d > U64MAX - pts))
  else if last_ntp < base_ntp then
    let d := base_ntp - last_ntp
    ((pts + U64MOD - d) % U64MOD, decide (pts < d), false)
  else (pts, false, false)

/-- `kms_rtp_synchronizer_rtp_diff_full`: applies the RTP-timestamp offset
between the packet's extended timestamp `r` and the reference `base_ext_ts`
to the buffer PTS `pts`, scaled through `clock_rate`, with the saturation
policy driven by the `wrapped_down` / `wrapped_up` flags. A direct
transcription of the C branch structure. -/
def rtpDiffFull (r base_ext_ts : Nat) (clock_rate : Int) (pts : Nat)
    (wrapped_down wrapped_up : Bool) : Nat :=
  if r > base_ext_ts then
    let d := gstScale (r - base_ext_ts) GST_SECOND clock_rate.toNat
    if wrapped_up = true then U64MAX
    else if wrapped_down = true ∧ d < U64MAX - pts then 0
    else if wrapped_down = false ∧ d > U64MAX - pts then U64MAX
    else (pts + d) % U64MOD
  else if r < base_ext_ts then
    let d := gstScale (base_ext_ts - r) GST_SECOND clock_rate.toNat
    if wrapped_down = true then 0
    else if wrapped_up = true ∧ d < pts then U64MAX
    else if wrapped_up = false ∧ d > pts then 0
    else (pts + U64MOD - d) % U64MOD
  else
    if wrapped_down = true then 0
    else if wrapped_up = true then U64MAX
    else pts

/-- The scaled magnitude of the RTP-timestamp difference used by
`rtpDiffFull` (`diff_rtp_time` in the C source). -/
def scaledDiff (r base : Nat) (clock_rate : Int) : Nat :=
  gstScale (if base ≤ r then r - base else base - r) GST_SECOND clock_rate.toNat

/-- An RTP packet as the synchronizer reads it: `ssrc`, payload type,
32-bit RTP timestamp, and the arrival-side PTS already attached to the
buffer. The sequence number and DTS feed only logging and stats. -/
structure RtpPacket where
  ssrc : Nat
  pt : Nat
  ts : Nat
  pts : Nat
deriving DecidableEq, Repr

/-- The sender-info fields of an RTCP Sender Report consumed by
`kms_rtp_synchronizer_process_rtcp_packet`. -/
structure SrPacket where
  ssrc : Nat
  ntp_ts : Nat
  rtp_ts : Nat
deriving DecidableEq, Repr

/-- Result of one `process_rtp` call: the new state, the boolean return
value, the error (if any), the buffer's PTS after the call, and the
extended timestamp computed for the packet (`none` when the call was
rejected before the extended-timestamp tracker was consulted). -/
structure RtpResult where
  state : SyncState
  ok : Bool
  err : Option SyncError
  pts : Nat
  ext : Option Nat
deriving DecidableEq, Repr

/-- The SSRC-learning step: the first packet's SSRC is stored when the
instance still has the initial value 0. -/
def learnSsrc (s : SyncState) (p : RtpPacket) : SyncState :=
  if s.ssrc = 0 then { s with ssrc := p.ssrc } else s

/-- The PTS computation of `process_rtp_buffer_mapped` (lines 496-534):
interpolation regime before the first SR (capturing the interpolation
anchor on the very first packet), synchronized regime afterwards
(NTP-offset step followed by `rtp_diff_full` against `last_rtcp_ext_ts`).
Takes the state with `rtp_ext_ts` already advanced, and the buffer PTS;
returns the updated state and the buffer PTS after the computation. -/
def computePts (s : SyncState) (inPts : Nat) : SyncState × Nat :=
  if s.base_initiated = false then
    if s.base_interpolate_initiated = false then
      ({ s with base_interpolate_ext_ts := s.rtp_ext_ts
                base_interpolate_pts := inPts
                base_interpolate_initiated := true }, inPts)
    else
      (s, rtpDiffFull s.rtp_ext_ts s.base_interpolate_ext_ts s.clock_rate
            s.base_interpolate_pts false false)
  else
    let step := ntpOffsetStep s.base_ntp_time s.last_rtcp_ntp_time s.base_sync_time
    (s, rtpDiffFull s.rtp_ext_ts s.last_rtcp_ext_ts s.clock_rate
          step.1 step.2.1 step.2.2)

/-- `kms_rtp_synchronizer_process_rtp_buffer_mapped`: SSRC learning and
check, payload-type / clock-rate check, extended-timestamp advance,
sorted-mode pre-checks (demotion on regression, duplicate-timestamp
short cut), PTS computation, sorted-mode post-fix (monotonic clamp and
recording). -/
def processRtp (s : SyncState) (p : RtpPacket) : RtpResult :=
  if s.ssrc ≠ 0 ∧ p.ssrc ≠ s.ssrc then
    ⟨s, false, some .InvalidData, p.pts, none⟩
  else
    let s1 := learnSsrc s p
    if (p.pt : Int) ≠ s1.pt ∨ s1.clock_rate ≤ 0 then
      ⟨s1, false, some .InvalidData, p.pts, none⟩
    else
      let ext := extTimestamp s1.rtp_ext_ts p.ts
      let s2 := { s1 with rtp_ext_ts := ext }
      if s2.feeded_sorted = true ∧ s2.fs_last_rtp_ext_ts ≠ U64MAX ∧
          ext < s2.fs_last_rtp_ext_ts then
        let c := computePts { s2 with feeded_sorted := false } p.pts
        ⟨c.1, false, some .InvalidData, c.2, some ext⟩
      else if s2.feeded_sorted = true ∧ ext = s2.fs_last_rtp_ext_ts then
        ⟨s2, true, none,
          if s2.fs_last_pts ≠ U64MAX then s2.fs_last_pts else p.pts, some ext⟩
      else
        let c := computePts s2 p.pts
        if c.1.feeded_sorted = true then
          let fixed := if c.1.fs_last_pts ≠ U64MAX ∧ c.2 < c.1.fs_last_pts then
              c.1.fs_last_pts else c.2
          ⟨{ c.1 with fs_last_rtp_ext_ts := ext, fs_last_pts := fixed },
            true, none, fixed, some ext⟩
        else ⟨c.1, true, none, c.2, some ext⟩

/-- `kms_rtp_synchronizer_process_rtcp_packet` for a Sender Report:
convert the 64-bit fixed-point NTP timestamp to nanoseconds
(`ntp * 10^9 / 2^32`), capture `(base_ntp_time, base_sync_time)` from the
first SR only, then feed the SR's RTP timestamp through the
extended-timestamp tracker and refresh `last_rtcp_ext_ts` /
`last_rtcp_ntp_time`. `currentTime` is the arrival-side sync clock
(`GST_BUFFER_DTS` of the RTCP buffer). -/
def processRtcpSr (s : SyncState) (sr : SrPacket) (currentTime : Nat) : SyncState :=
  let ntp_time := gstScale sr.ntp_ts GST_SECOND (2 ^ 32)
  let s1 := if s.base_initiated = false then
      { s with base_initiated := true
               base_ntp_time := ntp_time
               base_sync_time := currentTime }
    else s
  let ext := extTimestamp s1.rtp_ext_ts sr.rtp_ts
  { s1 with rtp_ext_ts := ext
            last_rtcp_ext_ts := ext
            last_rtcp_ntp_time := ntp_time }

/-- One external event fed to the synchronizer: an RTP packet or an RTCP
Sender Report (with its arrival-side sync-clock value). -/
inductive Event where
  | rtp (p : RtpPacket)
  | rtcp (sr : SrPacket) (currentTime : Nat)
deriving DecidableEq, Repr

/-- The observable outcome of a run: final state, the buffer PTS values of
the successful `process_rtp` calls in order, and the extended timestamps
computed for the RTP packets that passed the early checks. -/
structure RunOut where
  state : SyncState
  emitted : List Nat
  exts : List Nat
deriving DecidableEq, Repr

/-- Feed a list of events through the synchronizer. -/
def runEvents (s : SyncState) : List Event → RunOut
  | [] => ⟨s, [], []⟩
  | Event.rtp p :: rest =>
    let r := processRtp s p
    let out := runEvents r.state rest
    ⟨out.state,
      (if r.ok then [r.pts] else []) ++ out.emitted,
      r.ext.toList ++ out.exts⟩
  | Event.rtcp sr t :: rest => runEvents (processRtcpSr s sr t) rest

/-! ### Helper lemmas: field preservation of the basic steps -/

@[simp] lemma learnSsrc_pt (s : SyncState) (p : RtpPacket) :
    (learnSsrc s p).pt = s.pt := by
  unfold learnSsrc; split <;> rfl

@[simp] lemma learnSsrc_clock_rate (s : SyncState) (p : RtpPacket) :
    (learnSsrc s p).clock_rate = s.clock_rate := by
  unfold learnSsrc; split <;> rfl

@[simp] lemma learnSsrc_feeded_sorted (s : SyncState) (p : RtpPacket) :
    (learnSsrc s p).feeded_sorted = s.feeded_sorted := by
  unfold learnSsrc; split <;> rfl

@[simp] lemma learnSsrc_rtp_ext_ts (s : SyncState) (p : RtpPacket) :
    (learnSsrc s p).rtp_ext_ts = s.rtp_ext_ts := by
  unfold learnSsrc; split <;> rfl

@[simp] lemma learnSsrc_fs_last_rtp_ext_ts (s : SyncState) (p : RtpPacket) :
    (learnSsrc s p).fs_last_rtp_ext_ts = s.fs_last_rtp_ext_ts := by
  unfold learnSsrc; split <;> rfl

@[simp] lemma learnSsrc_fs_last_pts (s : SyncState) (p : RtpPacket) :
    (learnSsrc s p).fs_last_pts = s.fs_last_pts := by
  unfold learnSsrc; split <;> rfl

@[simp] lemma learnSsrc_base_initiated (s : SyncState) (p : RtpPacket) :
    (learnSsrc s p).base_initiated = s.base_initiated := by
  unfold learnSsrc; split <;> rfl

@[simp] lemma learnSsrc_base_interpolate_initiated (s : SyncState) (p : RtpPacket) :
    (learnSsrc s p).base_interpolate_initiated = s.base_interpolate_initiated := by
  unfold learnSsrc; split <;> rfl

@[simp] lemma learnSsrc_base_interpolate_ext_ts (s : SyncState) (p : RtpPacket) :
    (learnSsrc s p).base_interpolate_ext_ts = s.base_interpolate_ext_ts := by
  unfold learnSsrc; split <;> rfl

@[simp] lemma learnSsrc_base_interpolate_pts (s : SyncState) (p : RtpPacket) :
    (learnSsrc s p).base_interpolate_pts = s.base_interpolate_pts := by
  unfold learnSsrc; split <;> rfl

@[simp] lemma learnSsrc_base_ntp_time (s : SyncState) (p : RtpPacket) :
    (learnSsrc s p).base_ntp_time = s.base_ntp_time := by
  unfold learnSsrc; split <;> rfl

@[simp] lemma learnSsrc_base_sync_time (s : SyncState) (p : RtpPacket) :
    (learnSsrc s p).base_sync_time = s.base_sync_time := by
  unfold learnSsrc; split <;> rfl

@[simp] lemma learnSsrc_last_rtcp_ext_ts (s : SyncState) (p : RtpPacket) :
    (learnSsrc s p).last_rtcp_ext_ts = s.last_rtcp_ext_ts := by
  unfold learnSsrc; split <;> rfl

@[simp] lemma learnSsrc_last_rtcp_ntp_time (s : SyncState) (p : RtpPacket) :
    (learnSsrc s p).last_rtcp_ntp_time = s.last_rtcp_ntp_time := by
  unfold learnSsrc; split <;> rfl

@[simp] lemma computePts_feeded_sorted (s : SyncState) (i : Nat) :
    (computePts s i).1.feeded_sorted = s.feeded_sorted := by
  unfold computePts; split_ifs <;> rfl

@[simp] lemma computePts_fs_last_pts (s : SyncState) (i : Nat) :
    (computePts s i).1.fs_last_pts = s.fs_last_pts := by
  unfold computePts; split_ifs <;> rfl

@[simp] lemma computePts_fs_last_rtp_ext_ts (s : SyncState) (i : Nat) :
    (computePts s i).1.fs_last_rtp_ext_ts = s.fs_last_rtp_ext_ts := by
  unfold computePts; split_ifs <;> rfl

@[simp] lemma computePts_ssrc (s : SyncState) (i : Nat) :
    (computePts s i).1.ssrc = s.ssrc := by
  unfold computePts; split_ifs <;> rfl

@[simp] lemma computePts_rtp_ext_ts (s : SyncState) (i : Nat) :
    (computePts s i).1.rtp_ext_ts = s.rtp_ext_ts := by
  unfold computePts; split_ifs <;> rfl

@[simp] lemma processRtcpSr_feeded_sorted (s : SyncState) (sr : SrPacket) (t : Nat) :
    (processRtcpSr s sr t).feeded_sorted = s.feeded_sorted := by
  unfold processRtcpSr; split <;> rfl

@[simp] lemma processRtcpSr_fs_last_pts (s : SyncState) (sr : SrPacket) (t : Nat) :
    (processRtcpSr s sr t).fs_last_pts = s.fs_last_pts := by
  unfold processRtcpSr; split <;> rfl

@[simp] lemma processRtcpSr_fs_last_rtp_ext_ts (s : SyncState) (sr : SrPacket) (t : Nat) :
    (processRtcpSr s sr t).fs_last_rtp_ext_ts = s.fs_last_rtp_ext_ts := by
  unfold processRtcpSr; split <;> rfl

@[simp] lemma processRtcpSr_ssrc (s : SyncState) (sr : SrPacket) (t : Nat) :
    (processRtcpSr s sr t).ssrc = s.ssrc := by
  unfold processRtcpSr; split <;> rfl

/-- `feeded_sorted` can only go from `true` to `false` across one
`process_rtp` call, never the other way. -/
lemma processRtp_sorted_mono (s : SyncState) (p : RtpPacket) :
    (processRtp s p).state.feeded_sorted = true → s.feeded_sorted = true := by
  cases hs : s.feeded_sorted with
  | true => exact fun _ => rfl
  | false =>
    suffices hf : (processRtp s p).state.feeded_sorted = false by
      rw [hf]; exact fun h => by cases h
    simp only [processRtp]
    split_ifs with h1 h2 h3 h4 h5 <;> simp_all

/-- Once unsorted, a run stays unsorted. -/
lemma runEvents_unsorted (evs : List Event) :
    ∀ s : SyncState, s.feeded_sorted = false →
      (runEvents s evs).state.feeded_sorted = false := by
  induction evs with
  | nil => intro s hs; simpa [runEvents] using hs
  | cons e rest ih =>
    intro s hs
    cases e with
    | rtp p =>
      simp only [runEvents]
      apply ih
      cases h : (processRtp s p).state.feeded_sorted with
      | false => rfl
      | true => exact absurd (processRtp_sorted_mono s p h) (by simp [hs])
    | rtcp sr t =>
      simp only [runEvents]
      apply ih
      simp [hs]

/-- Claim C9: `configure(pt, clock_rate)` fails with InvalidData when
`clock_rate ≤ 0`; after one successful configuration every subsequent
configuration attempt fails with InvalidData, even with identical
arguments; on success `pt` and `clock_rate` are stored. -/
theorem C9_configure_once (s : SyncState) (pt cr : Int) :
    (cr ≤ 0 → setPtClockRate s pt cr = ⟨s, false, some SyncError.InvalidData⟩) ∧
    (s.clock_rate ≠ 0 → setPtClockRate s pt cr = ⟨s, false, some SyncError.InvalidData⟩) ∧
    (s.clock_rate = 0 → 0 < cr →
      (setPtClockRate s pt cr).ok = true ∧
      (setPtClockRate s pt cr).state.pt = pt ∧
      (setPtClockRate s pt cr).state.clock_rate = cr ∧
      setPtClockRate (setPtClockRate s pt cr).state pt cr =
        ⟨(setPtClockRate s pt cr).state, false, some SyncError.InvalidData⟩) := by
  refine ⟨fun h => ?_, fun h => ?_, fun h0 hc => ?_⟩
  · simp [setPtClockRate, h]
  · unfold setPtClockRate; split_ifs <;> simp_all
  · have hns : ¬ cr ≤ 0 := not_le.mpr hc
    simp [setPtClockRate, hns, h0, hc.ne']

/-- Witness for C9 at a concrete configuration. -/
theorem C9_configure_once_witness :
    (setPtClockRate (initState true) 96 90000).ok = true ∧
    (setPtClockRate (initState true) 96 90000).state.pt = 96 ∧
    (setPtClockRate (initState true) 96 90000).state.clock_rate = 90000 ∧
    setPtClockRate (setPtClockRate (initState true) 96 90000).state 96 90000 =
      ⟨(setPtClockRate (initState true) 96 90000).state, false,
        some SyncError.InvalidData⟩ :=
  (C9_configure_once (initState true) 96 90000).2.2 rfl (by decide)

/-- Claim C10: when `process_rtp` rejects a packet for SSRC mismatch,
payload-type mismatch, or an unset/invalid clock rate, the rejection
happens before the extended-timestamp tracker is advanced: `rtp_ext_ts`,
both anchors, `last_rtcp_*`, the sorted-mode state and the buffer's PTS
are all unchanged. -/
theorem C10_reject_no_mutation (s : SyncState) (p : RtpPacket)
    (h : (s.ssrc ≠ 0 ∧ p.ssrc ≠ s.ssrc) ∨ ((p.pt : Int) ≠ s.pt ∨ s.clock_rate ≤ 0)) :
    (processRtp s p).ok = false ∧
    (processRtp s p).err = some SyncError.InvalidData ∧
    (processRtp s p).ext = none ∧
    (processRtp s p).pts = p.pts ∧
    (processRtp s p).state.rtp_ext_ts = s.rtp_ext_ts ∧
    (processRtp s p).state.base_initiated = s.base_initiated ∧
    (processRtp s p).state.base_ntp_time = s.base_ntp_time ∧
    (processRtp s p).state.base_sync_time = s.base_sync_time ∧
    (processRtp s p).state.base_interpolate_initiated = s.base_interpolate_initiated ∧
    (processRtp s p).state.base_interpolate_ext_ts = s.base_interpolate_ext_ts ∧
    (processRtp s p).state.base_interpolate_pts = s.base_interpolate_pts ∧
    (processRtp s p).state.last_rtcp_ext_ts = s.last_rtcp_ext_ts ∧
    (processRtp s p).state.last_rtcp_ntp_time = s.last_rtcp_ntp_time ∧
    (processRtp s p).state.fs_last_rtp_ext_ts = s.fs_last_rtp_ext_ts ∧
    (processRtp s p).state.fs_last_pts = s.fs_last_pts ∧
    (processRtp s p).state.feeded_sorted = s.feeded_sorted := by
  by_cases hm : s.ssrc ≠ 0 ∧ p.ssrc ≠ s.ssrc
  · simp [processRtp, hm]
  · rcases h with h | h
    · exact absurd h hm
    · have hpt : (p.pt : Int) ≠ (learnSsrc s p).pt ∨ (learnSsrc s p).clock_rate ≤ 0 := by
        simpa using h
      simp only [processRtp]
      rw [if_neg hm, if_pos hpt]
      simp

/-- Witness for C10: a packet arriving before any configuration (clock
rate still 0) is rejected without touching the state. -/
theorem C10_reject_no_mutation_witness :
    (processRtp (initState true) ⟨1, 96, 0, 5⟩).ok = false ∧
    (processRtp (initState true) ⟨1, 96, 0, 5⟩).err = some SyncError.InvalidData ∧
    (processRtp (initState true) ⟨1, 96, 0, 5⟩).ext = none ∧
    (processRtp (initState true) ⟨1, 96, 0, 5⟩).pts = 5 ∧
    (processRtp (initState true) ⟨1, 96, 0, 5⟩).state.rtp_ext_ts =
      (initState true).rtp_ext_ts := by
  have h := C10_reject_no_mutation (initState true) ⟨1, 96, 0, 5⟩
    (Or.inr (Or.inr (by decide)))
  exact ⟨h.1, h.2.1, h.2.2.1, h.2.2.2.1, h.2.2.2.2.1⟩

/-- Claim C8 (amended): the SSRC is learned from the first RTP packet
whose SSRC is nonzero (0 is the "unlearned" sentinel, so a first packet
with SSRC 0 leaves the instance still unlearned); once a nonzero SSRC is
stored it is immutable, and every packet whose SSRC differs from it fails
with InvalidData with the buffer's PTS and the whole state unmodified. -/
theorem C8_ssrc_amended (s : SyncState) (p : RtpPacket) :
    (s.ssrc ≠ 0 → p.ssrc ≠ s.ssrc →
      processRtp s p = ⟨s, false, some SyncError.InvalidData, p.pts, none⟩) ∧
    (s.ssrc = 0 → (processRtp s p).state.ssrc = p.ssrc) ∧
    (s.ssrc ≠ 0 → (processRtp s p).state.ssrc = s.ssrc) := by
  refine ⟨fun h1 h2 => ?_, fun h0 => ?_, fun h1 => ?_⟩
  · simp [processRtp, h1, h2]
  · simp only [processRtp]
    split_ifs <;> simp_all [learnSsrc, h0]
  · simp only [processRtp]
    split_ifs <;> simp_all [learnSsrc, h1]

/-- Witness for C8's amended statement: a mismatching SSRC after learning
is rejected and nothing changes. -/
theorem C8_ssrc_witness :
    processRtp { initState false with ssrc := 1, pt := 96, clock_rate := 90000 }
        ⟨2, 96, 0, 7⟩ =
      ⟨{ initState false with ssrc := 1, pt := 96, clock_rate := 90000 },
        false, some SyncError.InvalidData, 7, none⟩ :=
  (C8_ssrc_amended { initState false with ssrc := 1, pt := 96, clock_rate := 90000 }
    ⟨2, 96, 0, 7⟩).1 (by decide) (by decide)

/-- Counterexample to claim C8 as stated: with a first RTP packet whose
SSRC is 0, the "learned" SSRC is 0, yet a subsequent packet with the
different SSRC 7 is accepted (the code treats 0 as "not yet learned"),
contradicting "every subsequent RTP packet whose ssrc differs from the
learned ssrc makes process_rtp fail with InvalidData". -/
theorem C8_claim_counterexample :
    (processRtp (setPtClockRate (initState false) 96 90000).state
        ⟨0, 96, 100, 5⟩).ok = true ∧
    (7 : Nat) ≠ 0 ∧
    (processRtp (processRtp (setPtClockRate (initState false) 96 90000).state
        ⟨0, 96, 100, 5⟩).state ⟨7, 96, 200, 6⟩).ok = true ∧
    (processRtp (processRtp (setPtClockRate (initState false) 96 90000).state
        ⟨0, 96, 100, 5⟩).state ⟨7, 96, 200, 6⟩).err = none := by
  decide


/-! ### Arithmetic helper facts -/

lemma u64max_add_one : U64MAX + 1 = U64MOD := by decide

lemma gstScale_le (v num den : Nat) : gstScale v num den ≤ U64MAX :=
  min_le_right _ _

lemma scaledDiff_of_le {r b : Nat} (cr : Int) (h : b ≤ r) :
    scaledDiff r b cr = gstScale (r - b) GST_SECOND cr.toNat := by
  simp [scaledDiff, h]

lemma scaledDiff_of_gt {r b : Nat} (cr : Int) (h : r < b) :
    scaledDiff r b cr = gstScale (b - r) GST_SECOND cr.toNat := by
  simp [scaledDiff, not_le.mpr h]

lemma U64MAX_eq : U64MAX = 18446744073709551615 := by norm_num [U64MAX]

lemma U64MOD_eq : U64MOD = 18446744073709551616 := by norm_num [U64MOD]

/-- With neither wrap flag set, `rtp_diff_full` computes exactly the true
value `pts ± diff` clamped to `[0, 2^64-1]` (the low clamp falling out of
the explicit zero branch, the high clamp from the explicit max branch). -/
lemma rtpDiffFull_noflags (r b : Nat) (cr : Int) (p : Nat) (hp : p ≤ U64MAX) :
    rtpDiffFull r b cr p false false =
      if b ≤ r then min (p + scaledDiff r b cr) U64MAX
      else p - scaledDiff r b cr := by
  have hd1 : gstScale (r - b) GST_SECOND cr.toNat ≤ U64MAX := gstScale_le _ _ _
  have hd2 : gstScale (b - r) GST_SECOND cr.toNat ≤ U64MAX := gstScale_le _ _ _
  rcases lt_trichotomy r b with h | h | h
  · rw [if_neg (not_le.mpr h), scaledDiff_of_gt cr h]
    simp only [rtpDiffFull, if_neg (lt_asymm h), if_pos h, Bool.false_eq_true,
      if_false, false_and, true_and, and_false]
    split_ifs with hgt
    · omega
    · simp only [U64MAX_eq] at hp hd2
      simp only [U64MOD_eq]
      omega
  · subst h
    rw [if_pos le_rfl]
    have h0 : scaledDiff r r cr = 0 := by
      norm_num [scaledDiff, gstScale]
    rw [h0, Nat.add_zero, min_eq_left hp]
    simp [rtpDiffFull]
  · rw [if_pos (le_of_lt h), scaledDiff_of_le cr (le_of_lt h)]
    simp only [rtpDiffFull, if_pos h, Bool.false_eq_true, if_false, false_and,
      true_and, and_false]
    split_ifs with hgt
    · simp only [U64MAX_eq] at hp hd1 hgt ⊢
      omega
    · simp only [U64MAX_eq] at hp hd1 hgt ⊢
      simp only [U64MOD_eq]
      omega

/-- Claim C4: once the first SR has been processed, `base_initiated`
stays true and `base_ntp_time` / `base_sync_time` are never rewritten by
a subsequent SR; every SR refreshes `last_rtcp_ext_ts` through the
extended-timestamp tracker and sets `last_rtcp_ntp_time` to the SR's NTP
timestamp converted to nanoseconds. -/
theorem C4_sr_anchor_invariants (s : SyncState) (sr : SrPacket) (t : Nat) :
    (s.base_initiated = true →
      (processRtcpSr s sr t).base_initiated = true ∧
      (processRtcpSr s sr t).base_ntp_time = s.base_ntp_time ∧
      (processRtcpSr s sr t).base_sync_time = s.base_sync_time) ∧
    (processRtcpSr s sr t).last_rtcp_ext_ts = extTimestamp s.rtp_ext_ts sr.rtp_ts ∧
    (processRtcpSr s sr t).last_rtcp_ntp_time = gstScale sr.ntp_ts GST_SECOND (2 ^ 32) ∧
    (processRtcpSr s sr t).rtp_ext_ts = extTimestamp s.rtp_ext_ts sr.rtp_ts := by
  simp only [processRtcpSr]
  split_ifs with h <;> simp_all

/-- Concrete state for the C4 witness: an instance whose base anchors are
already frozen. -/
def c4state : SyncState :=
  { initState false with base_initiated := true, base_ntp_time := 1000,
                         base_sync_time := 2000 }

/-- Witness for C4: a later SR does not rewrite the frozen anchors. -/
theorem C4_sr_anchor_witness :
    (processRtcpSr c4state ⟨5, 4294967296, 777⟩ 42).base_initiated = true ∧
    (processRtcpSr c4state ⟨5, 4294967296, 777⟩ 42).base_ntp_time = c4state.base_ntp_time ∧
    (processRtcpSr c4state ⟨5, 4294967296, 777⟩ 42).base_sync_time = c4state.base_sync_time :=
  (C4_sr_anchor_invariants c4state ⟨5, 4294967296, 777⟩ 42).1 rfl

/-- Claim C7: in sorted mode, a packet whose extended timestamp equals
`fs_last_rtp_ext_ts` while `fs_last_pts` is set gets exactly the
preceding emitted PTS, the PTS computation is skipped entirely (no anchor
or sorted-mode field changes), and the call succeeds. -/
theorem C7_duplicate_ts_pts (s : SyncState) (p : RtpPacket)
    (hs : s.feeded_sorted = true)
    (hssrc : ¬(s.ssrc ≠ 0 ∧ p.ssrc ≠ s.ssrc))
    (hpt : (p.pt : Int) = s.pt) (hcr : 0 < s.clock_rate)
    (heq : extTimestamp s.rtp_ext_ts p.ts = s.fs_last_rtp_ext_ts)
    (hv : s.fs_last_pts ≠ U64MAX) :
    (processRtp s p).ok = true ∧
    (processRtp s p).err = none ∧
    (processRtp s p).pts = s.fs_last_pts ∧
    (processRtp s p).state.rtp_ext_ts = s.fs_last_rtp_ext_ts ∧
    (processRtp s p).state.fs_last_rtp_ext_ts = s.fs_last_rtp_ext_ts ∧
    (processRtp s p).state.fs_last_pts = s.fs_last_pts ∧
    (processRtp s p).state.feeded_sorted = true ∧
    (processRtp s p).state.base_initiated = s.base_initiated ∧
    (processRtp s p).state.base_interpolate_initiated = s.base_interpolate_initiated ∧
    (processRtp s p).state.base_interpolate_ext_ts = s.base_interpolate_ext_ts ∧
    (processRtp s p).state.base_interpolate_pts = s.base_interpolate_pts ∧
    (processRtp s p).state.last_rtcp_ext_ts = s.last_rtcp_ext_ts ∧
    (processRtp s p).state.last_rtcp_ntp_time = s.last_rtcp_ntp_time := by
  simp only [processRtp]
  split_ifs <;> simp_all <;> omega

/-- Concrete state for the C7 witness. -/
def c7state : SyncState :=
  { initState true with ssrc := 9, pt := 96, clock_rate := 90000,
                        rtp_ext_ts := 8200, fs_last_rtp_ext_ts := 8200,
                        fs_last_pts := 180000000,
                        base_interpolate_initiated := true,
                        base_interpolate_ext_ts := 1000,
                        base_interpolate_pts := 100000000 }

/-- Witness for C7: a duplicate timestamp re-emits the previous PTS. -/
theorem C7_duplicate_ts_witness :
    (processRtp c7state ⟨9, 96, 8200, 3⟩).ok = true ∧
    (processRtp c7state ⟨9, 96, 8200, 3⟩).err = none ∧
    (processRtp c7state ⟨9, 96, 8200, 3⟩).pts = c7state.fs_last_pts := by
  have h := C7_duplicate_ts_pts c7state ⟨9, 96, 8200, 3⟩ rfl (by decide) (by decide)
    (by decide) (by decide) (by decide)
  exact ⟨h.1, h.2.1, h.2.2.1⟩

/-- Claim C6: in sorted mode, a packet whose extended timestamp regresses
below `fs_last_rtp_ext_ts` makes `process_rtp` report InvalidData, clears
`feeded_sorted`, and still processes the packet as unsorted (the PTS is
computed and written); moreover the true-to-false transition is one-way:
no step ever sets `feeded_sorted` back to true. -/
theorem C6_regression_demotes (s : SyncState) (p : RtpPacket)
    (hs : s.feeded_sorted = true)
    (hssrc : ¬(s.ssrc ≠ 0 ∧ p.ssrc ≠ s.ssrc))
    (hpt : (p.pt : Int) = s.pt) (hcr : 0 < s.clock_rate)
    (hvalid : s.fs_last_rtp_ext_ts ≠ U64MAX)
    (hlt : extTimestamp s.rtp_ext_ts p.ts < s.fs_last_rtp_ext_ts) :
    (processRtp s p).ok = false ∧
    (processRtp s p).err = some SyncError.InvalidData ∧
    (processRtp s p).state.feeded_sorted = false ∧
    (processRtp s p).pts =
      (computePts { learnSsrc s p with
          rtp_ext_ts := extTimestamp s.rtp_ext_ts p.ts,
          feeded_sorted := false } p.pts).2 ∧
    (processRtp s p).state =
      (computePts { learnSsrc s p with
          rtp_ext_ts := extTimestamp s.rtp_ext_ts p.ts,
          feeded_sorted := false } p.pts).1 ∧
    (∀ (s' : SyncState) (p' : RtpPacket),
      (processRtp s' p').state.feeded_sorted = true → s'.feeded_sorted = true) ∧
    (∀ (s' : SyncState) (sr : SrPacket) (t : Nat),
      (processRtcpSr s' sr t).feeded_sorted = s'.feeded_sorted) ∧
    (∀ (s' : SyncState) (evs : List Event),
      s'.feeded_sorted = false → (runEvents s' evs).state.feeded_sorted = false) := by
  refine ⟨?_, ?_, ?_, ?_, ?_, processRtp_sorted_mono, processRtcpSr_feeded_sorted,
    fun s' evs => runEvents_unsorted evs s'⟩ <;>
  · simp only [processRtp]
    split_ifs <;> simp_all <;> omega

/-- The per-adjustment saturation contract exactly as claim C1 words it
(refinement target, written from the spec's table, to be compared with
`rtpDiffFull`): on an add, if `d > 2^64-1 - p` and the state is
wrapped_up the result is `2^64-1`; on an add, if wrapped_down and
`d < 2^64-1 - p` the result is 0; on a subtract, if `d > p` and not
wrapped_up the result is 0; on a subtract, if wrapped_up and `d < p` the
result is `2^64-1`; in every other case the result is exactly `p + d` or
`p - d`. -/
def claimSatContract (isAdd : Bool) (p d : Nat) (wd wu : Bool) (res : Nat) : Prop :=
  (isAdd = true → d > U64MAX - p → wu = true → res = U64MAX) ∧
  (isAdd = true → wd = true → d < U64MAX - p → res = 0) ∧
  (isAdd = false → d > p → wu = false → res = 0) ∧
  (isAdd = false → wu = true → d < p → res = U64MAX) ∧
  (¬(isAdd = true ∧ d > U64MAX - p ∧ wu = true) →
   ¬(isAdd = true ∧ wd = true ∧ d < U64MAX - p) →
   ¬(isAdd = false ∧ d > p ∧ wu = false) →
   ¬(isAdd = false ∧ wu = true ∧ d < p) →
   res = (if isAdd = true then p + d else p - d))

/-- Counterexample to claim C1 as stated: an addition (`r = 2 > 1 = base`,
scaled magnitude `d = 1`) applied to `p = 100` with `wrapped_up` set. The
claim's table has no matching saturation row (`d ≤ 2^64-1 - p`), so it
demands the exact result `101`; the code returns `2^64-1` (an
unconditional saturation on `wrapped_up`). -/
theorem C1_claim_counterexample :
    ¬ claimSatContract true 100 1 false true
        (rtpDiffFull 2 1 1000000000 100 false true) := by
  intro h
  have h5 := h.2.2.2.2 (by decide) (by decide) (by decide) (by decide)
  exact absurd h5 (by decide)

/-- Claim C1 (amended): the contract actually implemented. On an add,
`wrapped_up` forces `2^64-1` regardless of `d`; with `wrapped_down` set
and `d < 2^64-1-p` the result is 0; with neither flag set it saturates
high iff `d > 2^64-1-p`; the residual wrapped_down case wraps modulo
`2^64` (cancelling the earlier down-wrap). On a subtract, `wrapped_down`
forces 0 regardless of `d`; `wrapped_up` with `d < p` forces `2^64-1`;
with neither flag it saturates low iff `d > p`; the residual wrapped_up
case wraps modulo `2^64`. On equal timestamps the saturated value is
forced iff a wrap flag is set, else the PTS is unchanged. With neither
flag set the result is exactly the true value `p ± d` clamped to
`[0, 2^64-1]`. The NTP-offset step itself wraps modulo `2^64` and records
in the flags exactly whether the true value left `[0, 2^64-1]`;
saturation is applied by the subsequent rtp-diff step. -/
theorem C1_saturation_contract_amended (r b : Nat) (cr : Int) (p : Nat)
    (wd wu : Bool) (bn ln q : Nat)
    (hw : ¬(wd = true ∧ wu = true)) (hp : p ≤ U64MAX)
    (hbn : bn ≤ U64MAX) (hln : ln ≤ U64MAX) (hq : q ≤ U64MAX) :
    (r > b → wu = true → rtpDiffFull r b cr p wd wu = U64MAX) ∧
    (r > b → wd = true → scaledDiff r b cr < U64MAX - p →
      rtpDiffFull r b cr p wd wu = 0) ∧
    (r > b → wd = false → wu = false → scaledDiff r b cr > U64MAX - p →
      rtpDiffFull r b cr p wd wu = U64MAX) ∧
    (r > b → wd = true → scaledDiff r b cr ≥ U64MAX - p →
      rtpDiffFull r b cr p wd wu = (p + scaledDiff r b cr) % U64MOD) ∧
    (r < b → wd = true → rtpDiffFull r b cr p wd wu = 0) ∧
    (r < b → wu = true → scaledDiff r b cr < p →
      rtpDiffFull r b cr p wd wu = U64MAX) ∧
    (r < b → wd = false → wu = false → scaledDiff r b cr > p →
      rtpDiffFull r b cr p wd wu = 0) ∧
    (r < b → wu = true → scaledDiff r b cr ≥ p →
      rtpDiffFull r b cr p wd wu = (p + U64MOD - scaledDiff r b cr) % U64MOD) ∧
    (r = b → wd = true → rtpDiffFull r b cr p wd wu = 0) ∧
    (r = b → wd = false → wu = true → rtpDiffFull r b cr p wd wu = U64MAX) ∧
    (r = b → wd = false → wu = false → rtpDiffFull r b cr p wd wu = p) ∧
    (wd = false → wu = false →
      rtpDiffFull r b cr p wd wu =
        if b ≤ r then min (p + scaledDiff r b cr) U64MAX
        else p - scaledDiff r b cr) ∧
    (bn < ln → ntpOffsetStep bn ln q =
      ((q + (ln - bn)) % U64MOD, false, decide (ln - bn > U64MAX - q))) ∧
    (ln < bn → ntpOffsetStep bn ln q =
      ((q + U64MOD - (bn - ln)) % U64MOD, decide (q < bn - ln), false)) ∧
    (bn = ln → ntpOffsetStep bn ln q = (q, false, false)) ∧
    (bn < ln → ((ntpOffsetStep bn ln q).2.2 = true ↔ U64MOD ≤ q + (ln - bn))) ∧
    (ln < bn → ((ntpOffsetStep bn ln q).2.1 = true ↔ q < bn - ln)) ∧
    (bn < ln → U64MOD ≤ q + (ln - bn) →
      (ntpOffsetStep bn ln q).1 = q + (ln - bn) - U64MOD) ∧
    (bn < ln → q + (ln - bn) < U64MOD →
      (ntpOffsetStep bn ln q).1 = q + (ln - bn)) ∧
    (ln < bn → q < bn - ln →
      (ntpOffsetStep bn ln q).1 = q + U64MOD - (bn - ln)) ∧
    (ln < bn → bn - ln ≤ q → (ntpOffsetStep bn ln q).1 = q - (bn - ln)) := by
  have hid : U64MAX + 1 = U64MOD := u64max_add_one
  have hd1 : gstScale (r - b) GST_SECOND cr.toNat ≤ U64MAX := gstScale_le _ _ _
  have hd2 : gstScale (b - r) GST_SECOND cr.toNat ≤ U64MAX := gstScale_le _ _ _
  refine ⟨?_, ?_, ?_, ?_, ?_, ?_, ?_, ?_, ?_, ?_, ?_, ?_, ?_, ?_, ?_, ?_, ?_,
    ?_, ?_, ?_, ?_⟩
  · intro h hwu; simp [rtpDiffFull, h, hwu]
  · intro h hwd hlt
    have hwu : wu = false := by
      cases wu with
      | false => rfl
      | true => exact absurd ⟨hwd, rfl⟩ hw
    rw [scaledDiff_of_le cr (le_of_lt h)] at hlt
    simp [rtpDiffFull, h, hwd, hwu, hlt]
  · intro h hwd hwu hgt
    rw [scaledDiff_of_le cr (le_of_lt h)] at hgt
    simp [rtpDiffFull, h, hwd, hwu, hgt, not_lt.mpr (le_of_lt hgt)]
  · intro h hwd hge
    have hwu : wu = false := by
      cases wu with
      | false => rfl
      | true => exact absurd ⟨hwd, rfl⟩ hw
    rw [scaledDiff_of_le cr (le_of_lt h)] at hge ⊢
    simp [rtpDiffFull, h, hwd, hwu, not_lt.mpr hge]
  · intro h hwd; simp [rtpDiffFull, h, not_lt.mpr (le_of_lt h), hwd]
  · intro h hwu hlt
    have hwd : wd = false := by
      cases wd with
      | false => rfl
      | true => exact absurd ⟨rfl, hwu⟩ hw
    rw [scaledDiff_of_gt cr h] at hlt
    simp [rtpDiffFull, h, not_lt.mpr (le_of_lt h), hwd, hwu, hlt]
  · intro h hwd hwu hgt
    rw [scaledDiff_of_gt cr h] at hgt
    simp [rtpDiffFull, h, not_lt.mpr (le_of_lt h), hwd, hwu, hgt]
  · intro h hwu hge
    have hwd : wd = false := by
      cases wd with
      | false => rfl
      | true => exact absurd ⟨rfl, hwu⟩ hw
    rw [scaledDiff_of_gt cr h] at hge ⊢
    simp [rtpDiffFull, h, not_lt.mpr (le_of_lt h), hwd, hwu, not_lt.mpr hge]
  · intro h hwd; simp [rtpDiffFull, h, hwd]
  · intro h hwd hwu; simp [rtpDiffFull, h, hwd, hwu]
  · intro h hwd hwu; simp [rtpDiffFull, h, hwd, hwu]
  · intro hwd hwu
    subst hwd
    subst hwu
    exact rtpDiffFull_noflags r b cr p hp
  · intro h; simp [ntpOffsetStep, h]
  · intro h; simp [ntpOffsetStep, h, lt_asymm h]
  · intro h; simp [ntpOffsetStep, h]
  · intro h; simp [ntpOffsetStep, h]; omega
  · intro h; simp [ntpOffsetStep, h, lt_asymm h]
  · intro h hge
    simp only [ntpOffsetStep, if_pos h]
    simp only [U64MAX_eq] at hq hln hbn
    simp only [U64MOD_eq] at hge ⊢
    omega
  · intro h hlt
    simp only [ntpOffsetStep, if_pos h]
    simp only [U64MAX_eq] at hq hln hbn
    simp only [U64MOD_eq] at hlt ⊢
    omega
  · intro h hlt
    simp only [ntpOffsetStep, if_neg (lt_asymm h), if_pos h]
    simp only [U64MAX_eq] at hq hln hbn
    simp only [U64MOD_eq]
    omega
  · intro h hle
    simp only [ntpOffsetStep, if_neg (lt_asymm h), if_pos h]
    simp only [U64MAX_eq] at hq hln hbn
    simp only [U64MOD_eq]
    omega

/-- Witness for C1's amended contract: a flagless addition is exact and
the NTP-offset step takes the additive form, at concrete inputs. -/
theorem C1_saturation_contract_witness :
    rtpDiffFull 2 1 1000000000 5 false false =
      (if 1 ≤ 2 then min (5 + scaledDiff 2 1 1000000000) U64MAX
       else 5 - scaledDiff 2 1 1000000000) ∧
    ntpOffsetStep 10 25 7 =
      ((7 + (25 - 10)) % U64MOD, false, decide (25 - 10 > U64MAX - 7)) := by
  have h := C1_saturation_contract_amended 2 1 1000000000 5 false false 10 25 7
    (by decide) (by decide) (by decide) (by decide) (by decide)
  obtain ⟨c1, c2, c3, c4, c5, c6, c7, c8, c9, c10, c11, c12, c13, crest⟩ := h
  exact ⟨c12 rfl rfl, c13 (by decide)⟩

/-- Claim C2 (amended): in the interpolation regime (no SR observed),
with the sorted-mode guard inactive (`feeded_sorted = false`, hypothesis
`hns`), every packet after the first gets `base_interpolate_pts` plus
the signed delta between its extended timestamp and
`base_interpolate_ext_ts`, converted to nanoseconds through `clock_rate`
(as computed by the code's 64-bit scale), sign preserved, provided the
adjusted value stays inside `[0, 2^64-1]` (hypotheses `hup` / `hdown`).
Both provisos are forced by the counterexample: outside the range the C1
saturation contract takes over (its first part), and in sorted mode the
guard can replace the computed value - in particular a formula value of
exactly `2^64-1` is recorded as the unset sentinel, after which a
duplicate-timestamp packet keeps its incoming buffer PTS (its second
part). In particular the spec's S1 scenario (which is sorted but never
triggers the guard) emits `[100000000, 140000000, 180000000]`. -/
theorem C2_interpolation_pts (s : SyncState) (p : RtpPacket)
    (hns : s.feeded_sorted = false)
    (hbase : s.base_initiated = false)
    (hinterp : s.base_interpolate_initiated = true)
    (hssrc : ¬(s.ssrc ≠ 0 ∧ p.ssrc ≠ s.ssrc))
    (hpt : (p.pt : Int) = s.pt) (hcr : 0 < s.clock_rate)
    (hp : s.base_interpolate_pts ≤ U64MAX)
    (hup : s.base_interpolate_ext_ts ≤ extTimestamp s.rtp_ext_ts p.ts →
      s.base_interpolate_pts + scaledDiff (extTimestamp s.rtp_ext_ts p.ts)
        s.base_interpolate_ext_ts s.clock_rate ≤ U64MAX)
    (hdown : extTimestamp s.rtp_ext_ts p.ts < s.base_interpolate_ext_ts →
      scaledDiff (extTimestamp s.rtp_ext_ts p.ts)
        s.base_interpolate_ext_ts s.clock_rate ≤ s.base_interpolate_pts) :
    (processRtp s p).ok = true ∧
    ((processRtp s p).pts : Int) =
      (s.base_interpolate_pts : Int) +
        (if s.base_interpolate_ext_ts ≤ extTimestamp s.rtp_ext_ts p.ts then
          (scaledDiff (extTimestamp s.rtp_ext_ts p.ts)
            s.base_interpolate_ext_ts s.clock_rate : Int)
         else
          -(scaledDiff (extTimestamp s.rtp_ext_ts p.ts)
            s.base_interpolate_ext_ts s.clock_rate : Int)) ∧
    (runEvents (setPtClockRate (initState true) 96 90000).state
      [Event.rtp ⟨1, 96, 1000, 100000000⟩,
       Event.rtp ⟨1, 96, 4600, 100000001⟩,
       Event.rtp ⟨1, 96, 8200, 100000002⟩]).emitted =
      [100000000, 140000000, 180000000] := by
  have hkey : (processRtp s p).ok = true ∧ (processRtp s p).pts =
      rtpDiffFull (extTimestamp s.rtp_ext_ts p.ts) s.base_interpolate_ext_ts
        s.clock_rate s.base_interpolate_pts false false := by
    simp only [processRtp]
    split_ifs <;> simp_all [computePts] <;> omega
  refine ⟨hkey.1, ?_, by decide⟩
  rw [hkey.2, rtpDiffFull_noflags _ _ _ _ hp]
  by_cases hdir : s.base_interpolate_ext_ts ≤ extTimestamp s.rtp_ext_ts p.ts
  · rw [if_pos hdir, if_pos hdir, min_eq_left (hup hdir)]
    omega
  · rw [if_neg hdir, if_neg hdir]
    have hd := hdown (not_le.mp hdir)
    omega

/-- Concrete state for the C2 witness: interpolation anchor at extended
timestamp 1000 and PTS 100 ms, clock rate 90 kHz. -/
def c2state : SyncState :=
  { initState false with ssrc := 1, pt := 96, clock_rate := 90000,
                         base_interpolate_initiated := true,
                         base_interpolate_ext_ts := 1000,
                         base_interpolate_pts := 100000000,
                         rtp_ext_ts := 1000 }

/-- Witness for C2: the packet at RTP timestamp 4600 lands 40 ms after
the anchor. -/
theorem C2_interpolation_pts_witness :
    (processRtp c2state ⟨1, 96, 4600, 0⟩).ok = true ∧
    ((processRtp c2state ⟨1, 96, 4600, 0⟩).pts : Int) =
      (c2state.base_interpolate_pts : Int) +
        (if c2state.base_interpolate_ext_ts ≤
            extTimestamp c2state.rtp_ext_ts 4600 then
          (scaledDiff (extTimestamp c2state.rtp_ext_ts 4600)
            c2state.base_interpolate_ext_ts c2state.clock_rate : Int)
         else
          -(scaledDiff (extTimestamp c2state.rtp_ext_ts 4600)
            c2state.base_interpolate_ext_ts c2state.clock_rate : Int)) := by
  have h := C2_interpolation_pts c2state ⟨1, 96, 4600, 0⟩ rfl rfl rfl
    (by decide) (by decide) (by decide) (by decide) (by decide) (by decide)
  exact ⟨h.1, h.2.1⟩

/-! ### Claim C3: the extended-timestamp tracker on ascending input -/

/-- Run the extended-timestamp tracker over a list of 32-bit timestamps,
returning the produced 64-bit values. -/
def extendList (e : Nat) : List Nat → List Nat
  | [] => []
  | t :: ts => extTimestamp e t :: extendList (extTimestamp e t) ts

/-- Consecutive 32-bit inputs ascend in the wrapped sense: the wrapped
difference is positive and below `2^31` ("strictly ascending, successive
samples closer than `2^31` ticks, including across `2^32` wraparound"). -/
def wrapAsc (x y : Nat) : Prop :=
  0 < (y + 2 ^ 32 - x) % 2 ^ 32 ∧ (y + 2 ^ 32 - x) % 2 ^ 32 < 2 ^ 31

instance : DecidableRel wrapAsc := fun x y =>
  inferInstanceAs (Decidable (0 < (y + 2 ^ 32 - x) % 2 ^ 32 ∧
    (y + 2 ^ 32 - x) % 2 ^ 32 < 2 ^ 31))

/-- The claimed relation between consecutive (input, output) pairs: the
64-bit outputs strictly ascend and their first difference equals the
32-bit first difference of the inputs modulo `2^32`. -/
def extStep (pq rs : Nat × Nat) : Prop :=
  pq.2 < rs.2 ∧ rs.2 - pq.2 = (rs.1 + 2 ^ 32 - pq.1) % 2 ^ 32

instance : DecidableRel extStep := fun pq rs =>
  inferInstanceAs (Decidable (pq.2 < rs.2 ∧
    rs.2 - pq.2 = (rs.1 + 2 ^ 32 - pq.1) % 2 ^ 32))

lemma extendList_length (l : List Nat) : ∀ e, (extendList e l).length = l.length := by
  induction l with
  | nil => intro e; rfl
  | cons t ts ih => intro e; simp [extendList, ih]

/-- One tracker step under wrapped-ascending input is plain addition of
the wrapped difference. -/
lemma extTimestamp_add (e t : Nat) (he : e ≠ U64MAX) (ht : t < 2 ^ 32)
    (hd : (t + 2 ^ 32 - e % 2 ^ 32) % 2 ^ 32 < 2 ^ 31)
    (hb : e + (t + 2 ^ 32 - e % 2 ^ 32) % 2 ^ 32 < U64MOD) :
    extTimestamp e t = e + (t + 2 ^ 32 - e % 2 ^ 32) % 2 ^ 32 := by
  simp only [extTimestamp, if_neg he, Nat.mod_eq_of_lt ht, if_pos hd]
  exact Nat.mod_eq_of_lt hb

/-- Inductive core for C3: from an extended value `e` whose low 32 bits
equal the last input `a`, a wrapped-ascending input list produces strictly
ascending outputs with wrapped differences preserved. -/
lemma extendList_chain : ∀ (l : List Nat) (a e : Nat),
    (∀ t ∈ l, t < 2 ^ 32) → a < 2 ^ 32 → e % 2 ^ 32 = a →
    List.Chain wrapAsc a l →
    e + 2 ^ 31 * l.length < U64MOD →
    List.Chain extStep (a, e) (l.zip (extendList e l)) := by
  intro l
  induction l with
  | nil => intro a e _ _ _ _ _; exact List.Chain.nil
  | cons t ts ih =>
    intro a e hlt ha hmod hch hbound
    obtain ⟨hat, hchain⟩ := List.chain_cons.mp hch
    have ht : t < 2 ^ 32 := hlt t (by simp)
    obtain ⟨hd0, hd1⟩ := hat
    have hlen : (t :: ts).length = ts.length + 1 := rfl
    rw [hlen] at hbound
    have hmod' : (t + 2 ^ 32 - e % 2 ^ 32) % 2 ^ 32 = (t + 2 ^ 32 - a) % 2 ^ 32 := by
      rw [hmod]
    have hb : e + (t + 2 ^ 32 - a) % 2 ^ 32 < U64MOD := by
      simp only [U64MOD] at hbound ⊢
      omega
    have hemax : e ≠ U64MAX := by
      simp only [U64MOD] at hb
      simp only [U64MAX]
      omega
    have hstep : extTimestamp e t = e + (t + 2 ^ 32 - a) % 2 ^ 32 := by
      rw [extTimestamp_add e t hemax ht (hmod' ▸ hd1) (hmod' ▸ hb), hmod']
    have hzip : (t :: ts).zip (extendList e (t :: ts)) =
        (t, e + (t + 2 ^ 32 - a) % 2 ^ 32) ::
          ts.zip (extendList (e + (t + 2 ^ 32 - a) % 2 ^ 32) ts) := by
      simp [extendList, hstep]
    rw [hzip]
    refine List.Chain.cons ⟨by omega, by omega⟩ ?_
    refine ih t (e + (t + 2 ^ 32 - a) % 2 ^ 32)
      (fun x hx => hlt x (by simp [hx])) ht ?_ hchain ?_
    · omega
    · simp only [U64MOD] at hbound ⊢
      omega

/-- Claim C3 (amended, spec-modelled tracker): the first call returns
the 32-bit timestamp zero-extended; fed a strictly ascending 32-bit
sequence in the wrapped sense (successive samples closer than `2^31`
ticks) of length at most `2^32`, the produced 64-bit sequence is
strictly ascending with first differences equal to the 32-bit first
differences modulo `2^32`. The length bound is forced: without it the
modulo-`2^64` counter wraps after about `2^33` near-maximal steps and
strict ascent fails (see the counterexample). -/
theorem C3_extended_timestamp_ascending (l : List Nat)
    (hlt : ∀ t ∈ l, t < 2 ^ 32)
    (hasc : List.Chain' wrapAsc l)
    (hlen : l.length ≤ 2 ^ 32) :
    (∀ t : Nat, extTimestamp U64MAX t = t) ∧
    List.Chain' extStep (l.zip (extendList U64MAX l)) ∧
    (extendList U64MAX l).length = l.length := by
  refine ⟨fun t => by simp [extTimestamp], ?_, extendList_length l U64MAX⟩
  cases l with
  | nil => simp
  | cons t ts =>
    have ht : t < 2 ^ 32 := hlt t (by simp)
    have hfirst : extTimestamp U64MAX t = t := by simp [extTimestamp]
    have hzip : (t :: ts).zip (extendList U64MAX (t :: ts)) =
        (t, t) :: ts.zip (extendList t ts) := by
      simp [extendList, hfirst]
    rw [hzip]
    have hchain : List.Chain wrapAsc t ts := hasc
    have hmod : t % 2 ^ 32 = t := Nat.mod_eq_of_lt ht
    have hlen' : ts.length + 1 ≤ 2 ^ 32 := by simpa using hlen
    have hb : t + 2 ^ 31 * ts.length < U64MOD := by
      simp only [U64MOD]
      have h1 : 2 ^ 31 * ts.length ≤ 2 ^ 31 * (2 ^ 32 - 1) :=
        Nat.mul_le_mul_left _ (by omega)
      omega
    exact extendList_chain ts t t (fun x hx => hlt x (by simp [hx])) ht hmod hchain hb

/-- Witness for C3: the spec's S5 wraparound pair (0xFFFFFFF0 then 0x10,
wrapped delta 32 ticks). -/
theorem C3_extended_timestamp_witness :
    extTimestamp U64MAX 4294967280 = 4294967280 ∧
    List.Chain' extStep
      ([4294967280, 16].zip (extendList U64MAX [4294967280, 16])) ∧
    (extendList U64MAX [4294967280, 16]).length = [4294967280, 16].length := by
  have h := C3_extended_timestamp_ascending [4294967280, 16]
    (by decide)
    (show List.Chain' wrapAsc [4294967280, 16] from
      List.Chain.cons (by decide) List.Chain.nil)
    (by decide)
  exact ⟨h.1 4294967280, h.2.1, h.2.2⟩

/-! ### Claim C5: sorted-mode monotonicity -/

/-- Case analysis of one `process_rtp` call in sorted mode that does not
demote: it is either an early rejection (no emission, sorted-mode fields
untouched), the duplicate-timestamp short cut (emits `fs_last_pts` when
set, fields untouched), or a regular computation (records the emitted PTS,
which the post-fix clamp keeps at or above the previous `fs_last_pts`). -/
lemma processRtp_step_sorted (s : SyncState) (p : RtpPacket)
    (hs : s.feeded_sorted = true)
    (hstill : (processRtp s p).state.feeded_sorted = true) :
    ((processRtp s p).ok = false ∧ (processRtp s p).ext = none ∧
      (processRtp s p).state.fs_last_pts = s.fs_last_pts ∧
      (processRtp s p).state.fs_last_rtp_ext_ts = s.fs_last_rtp_ext_ts) ∨
    ((processRtp s p).ok = true ∧
      (processRtp s p).ext = some (extTimestamp s.rtp_ext_ts p.ts) ∧
      extTimestamp s.rtp_ext_ts p.ts = s.fs_last_rtp_ext_ts ∧
      (processRtp s p).state.fs_last_pts = s.fs_last_pts ∧
      (processRtp s p).state.fs_last_rtp_ext_ts = s.fs_last_rtp_ext_ts ∧
      (s.fs_last_pts ≠ U64MAX → (processRtp s p).pts = s.fs_last_pts) ∧
      (s.fs_last_pts = U64MAX → (processRtp s p).pts = p.pts)) ∨
    ((processRtp s p).ok = true ∧
      (processRtp s p).ext = some (extTimestamp s.rtp_ext_ts p.ts) ∧
      (processRtp s p).state.fs_last_rtp_ext_ts = extTimestamp s.rtp_ext_ts p.ts ∧
      (processRtp s p).state.fs_last_pts = (processRtp s p).pts ∧
      (s.fs_last_pts ≠ U64MAX → s.fs_last_pts ≤ (processRtp s p).pts)) := by
  revert hstill
  simp only [processRtp]
  split_ifs with h1 h2 h3 h4 h5 h6 h7 <;> intro hstill
  · exact Or.inl (by simp)
  · exact Or.inl (by simp)
  · simp at hstill
  · exact Or.inr (Or.inl ⟨rfl, by simp, by simpa using h4.2, by simp, by simp,
      fun _ => by simp, fun hv => absurd hv (by simpa using h5)⟩)
  · exact Or.inr (Or.inl ⟨rfl, by simp, by simpa using h4.2, by simp, by simp,
      fun hv => absurd (by simpa using h5) hv, fun _ => by simp⟩)
  · refine Or.inr (Or.inr ⟨rfl, by simp, by simp, by simp, fun hv => ?_⟩)
    simp_all
  · refine Or.inr (Or.inr ⟨rfl, by simp, by simp, by simp, fun hv => ?_⟩)
    rcases not_and_or.mp h7 with hc1 | hc2
    · exact absurd hv (by simpa using hc1)
    · simpa using le_of_not_lt (by simpa using hc2)
  · simp_all

/-- Run-level invariant for sorted mode: starting from a sorted state
whose sorted-mode fields are consistent (`fs_last_pts` unset implies
`fs_last_rtp_ext_ts` unset), if the run never demotes and neither the
emitted PTS values nor the computed extended timestamps ever hit the
sentinel `2^64-1`, the emitted PTS sequence continues the chain from
`fs_last_pts`. -/
lemma sortedRunChain : ∀ (evs : List Event) (s : SyncState),
    s.feeded_sorted = true →
    (s.fs_last_pts = U64MAX → s.fs_last_rtp_ext_ts = U64MAX) →
    (runEvents s evs).state.feeded_sorted = true →
    (∀ x ∈ (runEvents s evs).emitted, x ≠ U64MAX) →
    (∀ x ∈ (runEvents s evs).exts, x ≠ U64MAX) →
    (s.fs_last_pts ≠ U64MAX →
      List.Chain (· ≤ ·) s.fs_last_pts (runEvents s evs).emitted) ∧
    (s.fs_last_pts = U64MAX →
      List.Chain' (· ≤ ·) (runEvents s evs).emitted) := by
  intro evs
  induction evs with
  | nil =>
    intro s _ _ _ _ _
    exact ⟨fun _ => List.Chain.nil, fun _ => List.chain'_nil⟩
  | cons e rest ih =>
    intro s hs hinv hfin hemit hext
    cases e with
    | rtcp sr t =>
      have hred : runEvents s (Event.rtcp sr t :: rest) =
          runEvents (processRtcpSr s sr t) rest := rfl
      rw [hred] at hfin hemit hext ⊢
      have h1 := ih (processRtcpSr s sr t) (by simp [hs]) (by simpa using hinv)
        hfin hemit hext
      simpa using h1
    | rtp p =>
      have hred : runEvents s (Event.rtp p :: rest) =
          ⟨(runEvents (processRtp s p).state rest).state,
            (if (processRtp s p).ok then [(processRtp s p).pts] else []) ++
              (runEvents (processRtp s p).state rest).emitted,
            (processRtp s p).ext.toList ++
              (runEvents (processRtp s p).state rest).exts⟩ := rfl
      rw [hred] at hfin hemit hext ⊢
      dsimp only at hfin hemit hext ⊢
      have hstill : (processRtp s p).state.feeded_sorted = true := by
        cases hb : (processRtp s p).state.feeded_sorted with
        | false =>
          exfalso
          rw [runEvents_unsorted rest (processRtp s p).state hb] at hfin
          cases hfin
        | true => rfl
      rcases processRtp_step_sorted s p hs hstill with
        ⟨hok, hxt, hp1, hp2⟩ | ⟨hok, hxt, heq, hp1, hp2, hv1, hv2⟩ |
        ⟨hok, hxt, hp1, hp2, hmono⟩
      · simp only [hok, hxt, Bool.false_eq_true, if_false, Option.toList_none,
          List.nil_append] at hemit hext ⊢
        have hres := ih (processRtp s p).state hstill
          (by rw [hp1, hp2]; exact hinv) hfin hemit hext
        rw [hp1] at hres
        exact hres
      · simp only [hok, hxt, if_true, Option.toList_some, List.singleton_append,
          List.cons_append, List.nil_append] at hemit hext ⊢
        have hxe : extTimestamp s.rtp_ext_ts p.ts ≠ U64MAX :=
          hext _ (List.mem_cons_self _ _)
        have hfse : s.fs_last_rtp_ext_ts ≠ U64MAX := heq ▸ hxe
        have hfspts : s.fs_last_pts ≠ U64MAX := fun hcontra => hfse (hinv hcontra)
        have hemit' : ∀ x ∈ (runEvents (processRtp s p).state rest).emitted,
            x ≠ U64MAX := fun x hx => hemit x (List.mem_cons_of_mem _ hx)
        have hext' : ∀ x ∈ (runEvents (processRtp s p).state rest).exts,
            x ≠ U64MAX := fun x hx => hext x (List.mem_cons_of_mem _ hx)
        have hres := ih (processRtp s p).state hstill
          (by rw [hp1, hp2]; exact hinv) hfin hemit' hext'
        have hchain : List.Chain (· ≤ ·) s.fs_last_pts
            (runEvents (processRtp s p).state rest).emitted := by
          have := hres.1 (by rw [hp1]; exact hfspts)
          rwa [hp1] at this
        rw [hv1 hfspts]
        exact ⟨fun _ => List.Chain.cons le_rfl hchain,
          fun hcontra => absurd hcontra hfspts⟩
      · simp only [hok, hxt, if_true, Option.toList_some, List.singleton_append,
          List.cons_append, List.nil_append] at hemit hext ⊢
        have hpe : (processRtp s p).pts ≠ U64MAX :=
          hemit _ (List.mem_cons_self _ _)
        have hemit' : ∀ x ∈ (runEvents (processRtp s p).state rest).emitted,
            x ≠ U64MAX := fun x hx => hemit x (List.mem_cons_of_mem _ hx)
        have hext' : ∀ x ∈ (runEvents (processRtp s p).state rest).exts,
            x ≠ U64MAX := fun x hx => hext x (List.mem_cons_of_mem _ hx)
        have hres := ih (processRtp s p).state hstill
          (fun h => False.elim (hpe (hp2 ▸ h))) hfin hemit' hext'
        have hchain : List.Chain (· ≤ ·) (processRtp s p).pts
            (runEvents (processRtp s p).state rest).emitted := by
          have := hres.1 (by rw [hp2]; exact hpe)
          rwa [hp2] at this
        exact ⟨fun hfs => List.Chain.cons (hmono hfs) hchain, fun _ => hchain⟩

/-- Counterexample to claim C5 as stated: a sorted-mode run in which no
demotion ever happens (the final state is still sorted and every call
succeeds) yet the emitted PTS sequence decreases. The first SR arrives at
sync time `2^64-2`; the first packet's PTS saturates to `2^64-1`, which
is also `GST_CLOCK_TIME_NONE`, so it is recorded as "`fs_last_pts`
unset"; the next packet computes `2^64-2` and the monotonic clamp is
skipped. -/
theorem C5_claim_counterexample :
    (runEvents (setPtClockRate (initState true) 96 90000).state
      [Event.rtcp ⟨0, 0, 1000⟩ (U64MOD - 2),
       Event.rtp ⟨1, 96, 2000, 0⟩,
       Event.rtcp ⟨0, 0, 3000⟩ 0,
       Event.rtp ⟨1, 96, 3000, 0⟩]).state.feeded_sorted = true ∧
    (runEvents (setPtClockRate (initState true) 96 90000).state
      [Event.rtcp ⟨0, 0, 1000⟩ (U64MOD - 2),
       Event.rtp ⟨1, 96, 2000, 0⟩,
       Event.rtcp ⟨0, 0, 3000⟩ 0,
       Event.rtp ⟨1, 96, 3000, 0⟩]).emitted = [U64MAX, U64MOD - 2] ∧
    ¬ List.Chain' (· ≤ ·)
      (runEvents (setPtClockRate (initState true) 96 90000).state
        [Event.rtcp ⟨0, 0, 1000⟩ (U64MOD - 2),
         Event.rtp ⟨1, 96, 2000, 0⟩,
         Event.rtcp ⟨0, 0, 3000⟩ 0,
         Event.rtp ⟨1, 96, 3000, 0⟩]).emitted := by
  refine ⟨by decide, by decide, ?_⟩
  intro h
  have h2 : (U64MAX : Nat) ≤ U64MOD - 2 := by
    have he : (runEvents (setPtClockRate (initState true) 96 90000).state
      [Event.rtcp ⟨0, 0, 1000⟩ (U64MOD - 2),
       Event.rtp ⟨1, 96, 2000, 0⟩,
       Event.rtcp ⟨0, 0, 3000⟩ 0,
       Event.rtp ⟨1, 96, 3000, 0⟩]).emitted = [U64MAX, U64MOD - 2] := by decide
    rw [he] at h
    exact List.chain'_pair.mp h
  exact absurd h2 (by decide)

/-- Claim C5 (amended): for every event sequence fed to a freshly
configured sorted-mode synchronizer, if no demotion occurs (the final
state is still sorted) and the sentinel `2^64-1` never occurs as an
emitted PTS or as a computed extended timestamp, then the PTS values
emitted by the successful `process_rtp` calls form a non-decreasing
sequence. (The sentinel proviso is forced: an emitted PTS of `2^64-1` is
recorded as "`fs_last_pts` unset", disabling the clamp, as the
counterexample shows.) -/
theorem C5_sorted_monotonic_amended (pt cr : Int) (evs : List Event)
    (hfin : (runEvents (setPtClockRate (initState true) pt cr).state
      evs).state.feeded_sorted = true)
    (hemit : ∀ x ∈ (runEvents (setPtClockRate (initState true) pt cr).state
      evs).emitted, x ≠ U64MAX)
    (hext : ∀ x ∈ (runEvents (setPtClockRate (initState true) pt cr).state
      evs).exts, x ≠ U64MAX) :
    List.Chain' (· ≤ ·)
      (runEvents (setPtClockRate (initState true) pt cr).state evs).emitted := by
  have hs : (setPtClockRate (initState true) pt cr).state.feeded_sorted = true := by
    simp only [setPtClockRate]
    split_ifs <;> rfl
  have hfs : (setPtClockRate (initState true) pt cr).state.fs_last_pts = U64MAX := by
    simp only [setPtClockRate]
    split_ifs <;> rfl
  have hfe : (setPtClockRate (initState true) pt cr).state.fs_last_rtp_ext_ts =
      U64MAX := by
    simp only [setPtClockRate]
    split_ifs <;> rfl
  exact (sortedRunChain evs _ hs (fun _ => hfe) hfin hemit hext).2 hfs

/-- Witness for C5's amended statement: the S1 feed stays monotone. -/
theorem C5_sorted_monotonic_witness :
    List.Chain' (· ≤ ·)
      (runEvents (setPtClockRate (initState true) 96 90000).state
        [Event.rtp ⟨1, 96, 1000, 100000000⟩,
         Event.rtp ⟨1, 96, 4600, 100000001⟩,
         Event.rtp ⟨1, 96, 8200, 100000002⟩]).emitted :=
  C5_sorted_monotonic_amended 96 90000
    [Event.rtp ⟨1, 96, 1000, 100000000⟩,
     Event.rtp ⟨1, 96, 4600, 100000001⟩,
     Event.rtp ⟨1, 96, 8200, 100000002⟩]
    (by decide) (by decide) (by decide)

/-- Witness for C6: a regressing timestamp (4600 after 8200) demotes the
instance and reports InvalidData. -/
theorem C6_regression_demotes_witness :
    (processRtp c7state ⟨9, 96, 4600, 3⟩).ok = false ∧
    (processRtp c7state ⟨9, 96, 4600, 3⟩).err = some SyncError.InvalidData ∧
    (processRtp c7state ⟨9, 96, 4600, 3⟩).state.feeded_sorted = false := by
  have h := C6_regression_demotes c7state ⟨9, 96, 4600, 3⟩ rfl (by decide)
    (by decide) (by decide) (by decide) (by decide)
  exact ⟨h.1, h.2.1, h.2.2.1⟩

/-- Concrete state for the C2 counterexample: interpolation anchor with a
tiny anchor PTS, so a backward RTP delta saturates. -/
def c2sat : SyncState :=
  { initState false with ssrc := 1, pt := 96, clock_rate := 90000,
                         base_interpolate_initiated := true,
                         base_interpolate_ext_ts := 2000,
                         base_interpolate_pts := 5,
                         rtp_ext_ts := 2000 }

/-- Counterexample to claim C2 as stated, in two parts. (i) Saturation:
a packet 1000 ticks before the interpolation anchor would need PTS
`5 - 11111111 < 0`; the code emits 0 (saturates low), so the emitted PTS
does not equal the anchor PTS plus the signed delta. (ii) Sorted mode:
in a sorted interpolation run (anchor at ts 1000 / PTS `2^64-2`, clock
rate 10^9) the packet at ts 1001 has formula value exactly
`2^64-2 + 1 = 2^64-1`, inside `[0, 2^64-1]`, and is emitted as computed;
but that value is the `GST_CLOCK_TIME_NONE` sentinel, so the recorded
`fs_last_pts` reads as unset and the next packet - a duplicate at ts
1001, whose formula value is the same in-range `2^64-1` - keeps its
incoming buffer PTS 12345 instead, every call succeeding. So the
formula clause fails in sorted mode even inside the range. -/
theorem C2_claim_counterexample :
    ((processRtp c2sat ⟨1, 96, 1000, 77⟩).ok = true ∧
     (processRtp c2sat ⟨1, 96, 1000, 77⟩).pts = 0 ∧
     ((processRtp c2sat ⟨1, 96, 1000, 77⟩).pts : Int) ≠
       (c2sat.base_interpolate_pts : Int) +
         -(scaledDiff (extTimestamp c2sat.rtp_ext_ts 1000)
             c2sat.base_interpolate_ext_ts c2sat.clock_rate : Int)) ∧
    ((runEvents (setPtClockRate (initState true) 96 1000000000).state
       [Event.rtp ⟨1, 96, 1000, 18446744073709551614⟩,
        Event.rtp ⟨1, 96, 1001, 0⟩,
        Event.rtp ⟨1, 96, 1001, 12345⟩]).emitted =
       [18446744073709551614, U64MAX, 12345] ∧
     (runEvents (setPtClockRate (initState true) 96 1000000000).state
       [Event.rtp ⟨1, 96, 1000, 18446744073709551614⟩,
        Event.rtp ⟨1, 96, 1001, 0⟩,
        Event.rtp ⟨1, 96, 1001, 12345⟩]).state.feeded_sorted = true ∧
     18446744073709551614 + scaledDiff 1001 1000 1000000000 = U64MAX ∧
     (12345 : Nat) ≠ 18446744073709551614 + scaledDiff 1001 1000 1000000000) := by
  exact ⟨⟨by decide, by decide, by decide⟩, by decide, by decide, by decide, by decide⟩

/-- An explicit wrapped-ascending input that wraps the 64-bit counter:
`2^33 + 6` timestamps advancing by `2^31 - 1` ticks each (the largest
stride the ascending contract allows). The extended value after `k`
steps is `k * (2^31 - 1) mod 2^64`, which passes `2^64` at
`k = 2^33 + 5`. -/
def c3badInput : List Nat :=
  (List.range 8589934598).map (fun k => k * 2147483647 % 2 ^ 32)

/-- Closed form of the tracker on the stride-`(2^31 - 1)` feed: from the
extended value `k * (2^31 - 1) mod 2^64`, the inputs with indices
`k+1 .. k+n` produce exactly `j * (2^31 - 1) mod 2^64`, as long as no
intermediate extended value is the unset sentinel. -/
lemma extendList_stride : ∀ (n k : Nat),
    (∀ j, k ≤ j → j < k + n → j * 2147483647 % 2 ^ 64 ≠ U64MAX) →
    extendList (k * 2147483647 % 2 ^ 64)
      ((List.range' (k + 1) n).map (fun j => j * 2147483647 % 2 ^ 32)) =
      (List.range' (k + 1) n).map (fun j => j * 2147483647 % 2 ^ 64) := by
  intro n
  induction n with
  | zero => intro k _; rfl
  | succ m ih =>
    intro k hmax
    have hne : k * 2147483647 % 2 ^ 64 ≠ U64MAX := hmax k le_rfl (by omega)
    have hstep : extTimestamp (k * 2147483647 % 2 ^ 64)
        ((k + 1) * 2147483647 % 2 ^ 32) = (k + 1) * 2147483647 % 2 ^ 64 := by
      simp only [extTimestamp, if_neg hne, U64MOD]
      have hd : ((k + 1) * 2147483647 % 2 ^ 32 % 2 ^ 32 + 2 ^ 32 -
          k * 2147483647 % 2 ^ 64 % 2 ^ 32) % 2 ^ 32 = 2147483647 := by omega
      rw [hd, if_pos (by norm_num)]
      omega
    have hr : List.range' (k + 1) (m + 1) = (k + 1) :: List.range' (k + 2) m := rfl
    rw [hr]
    simp only [List.map_cons, extendList, hstep]
    have htail := ih (k + 1) (fun j h1 h2 => hmax j (by omega) (by omega))
    rw [show k + 1 + 1 = k + 2 from rfl] at htail
    rw [htail]

/-- The tracker output on `c3badInput` in closed form. -/
lemma c3badInput_out : extendList U64MAX c3badInput =
    (List.range 8589934598).map (fun k => k * 2147483647 % 2 ^ 64) := by
  have h1 : List.range 8589934598 = 0 :: List.range' 1 8589934597 := by
    rw [List.range_eq_range']
    rfl
  have h0 : extTimestamp U64MAX (0 * 2147483647 % 2 ^ 32) = 0 := by
    norm_num [extTimestamp]
  rw [c3badInput, h1, List.map_cons, List.map_cons, extendList]
  rw [h0]
  have hmax : ∀ j, 0 ≤ j → j < 0 + 8589934597 →
      j * 2147483647 % 2 ^ 64 ≠ U64MAX := by
    intro j _ hj
    rw [U64MAX_eq]
    omega
  have htail := extendList_stride 8589934597 0 hmax
  simp only [Nat.zero_mul, Nat.zero_add, Nat.zero_mod] at htail
  rw [htail]
  norm_num

/-- Counterexample to claim C3 as stated: `c3badInput` is a strictly
ascending 32-bit sequence in the claim's sense (successive samples
closer than `2^31` ticks, wraparound included), yet the produced 64-bit
sequence is not strictly ascending - between indices `2^33 + 4` and
`2^33 + 5` the extended counter wraps modulo `2^64`, dropping from
`2^64 - 4` to `2147483643`. The unbounded consequence in the claim is
therefore false. -/
theorem C3_claim_counterexample :
    (∀ t ∈ c3badInput, t < 2 ^ 32) ∧
    List.Chain' wrapAsc c3badInput ∧
    ¬ List.Chain' (fun x y : Nat => x < y) (extendList U64MAX c3badInput) ∧
    ¬ List.Chain' extStep (c3badInput.zip (extendList U64MAX c3badInput)) := by
  have hnum : (8589934598 : Nat) = (8589934597 : Nat).succ := rfl
  refine ⟨?_, ?_, ?_, ?_⟩
  · intro t ht
    obtain ⟨k, -, rfl⟩ := List.mem_map.mp ht
    exact Nat.mod_lt _ (by norm_num)
  · rw [c3badInput, List.chain'_map, hnum, List.chain'_range_succ]
    intro m _
    simp only [wrapAsc]
    constructor <;> omega
  · rw [c3badInput_out, List.chain'_map, hnum, List.chain'_range_succ]
    intro h
    have h2 := h 8589934596 (by norm_num)
    norm_num at h2
  · rw [c3badInput_out, c3badInput, List.zip_map', List.chain'_map, hnum,
      List.chain'_range_succ]
    intro h
    have h2 := (h 8589934596 (by norm_num)).1
    norm_num at h2
